import Mathlib

/-!
Verification of the mcp-server core (src/main.py): a shallow embedding of the
resource catalog, resource reader, and tool dispatcher, together with theorems
settling the specified behavioural claims.

Modelling conventions:
* Python exceptions are modelled as an explicit error type; handlers return
  `Except`.  A hard (propagated) error is `Except.error`; a soft failure is a
  normal `Except.ok` result whose text describes the problem.
* The filesystem is a finite map from absolute path strings to file contents,
  plus a list of existing directories.  `pathlib.Path` joining of a relative
  path is modelled as string concatenation with a slash, which is faithful for
  clean relative paths (normalisation of `.` components and duplicate slashes
  is not modelled; no claim depends on it).
* Python string slicing `s[n:]`, `startswith` and `endswith` are modelled on
  the character list underlying the string.
* The PostgreSQL backend is an oracle `exec : query -> params -> outcome`.
  For the one query shape the resource reader interpolates a table name into
  (`SELECT * FROM {name} LIMIT 100`), `pgExec` models the backend faithfully
  enough to exhibit the unescaped-identifier defect: the interpolated text is
  only accepted when the table name is a valid unquoted identifier.
* Row dictionaries produced by `RealDictCursor` are keyed by the queried
  columns; `json.dumps(..., default=str)` is modelled by rendering every cell
  as a string (escaping inside JSON strings is not modelled).
-/

namespace McpServer

/-- Values appearing in the `arguments` mapping of a tool invocation. -/
inductive PyVal where
  | str (s : String)
  | int (n : Int)
  | list (xs : List PyVal)

/-- The argument mapping of a tool call (a Python dict). -/
abbrev Args := List (String × PyVal)

/-- Python exceptions raised by the handlers (hard failure paths). -/
inductive PyErr where
  | unknownTool (name : String)
  | unsupportedScheme (uri : String)
  | notFound (path : String)
  | keyError (key : String)
  | typeError (msg : String)
  | backend (msg : String)
  | isADirectory (path : String)
  | notADirectory (path : String)
  deriving DecidableEq

/-- Content blocks of a ToolResult (mirrors TextContent / ImageContent /
EmbeddedResource from mcp.types; the handlers only ever build text blocks). -/
inductive ContentBlock where
  | text (s : String)
  | image (data : String)
  | embedded (data : String)
  deriving DecidableEq

/-- Sandbox filesystem state: file contents keyed by absolute path, plus the
set of existing directories. -/
structure FS where
  files : List (String × String)
  dirs : List String
  deriving DecidableEq

/-- A database table as seen by introspection: its name, its type string from
information_schema (e.g. "BASE TABLE" or "VIEW"), its columns and rows. -/
structure Table where
  name : String
  ttype : String
  cols : List String
  rows : List (List String)
  deriving DecidableEq

/-- Outcome of executing one SQL statement on the backend.  `resultSet` means
the cursor has a description (rows were yielded); `command` means a data
modification whose effects (`pending`) only become visible on commit. -/
inductive ExecOutcome where
  | err (msg : String)
  | resultSet (cols : List String) (rows : List (List String))
  | command (pending : List Table) (rowcount : Nat)
  deriving DecidableEq

/-- PostgreSQL backend state: the introspectable tables, whether introspection
succeeds, and the statement-execution oracle. -/
structure DB where
  tables : List Table
  introspectOk : Bool
  exec : String → List PyVal → ExecOutcome

/-- The whole backend world a request executes against. -/
structure World where
  fs : FS
  db : DB
  cache : List (String × String)

/-- The sandbox root, `DATA_DIR = Path("/app/data")`. -/
def dataDirStr : String := "/app/data"

/-- Python `s.startswith(p)`. -/
def pyStartsWith (s p : String) : Bool := p.data.isPrefixOf s.data

/-- Python `s.endswith(p)`. -/
def pyEndsWith (s p : String) : Bool := p.data.isSuffixOf s.data

/-- Python `s[n:]`. -/
def pyDrop (s : String) (n : Nat) : String := String.mk (s.data.drop n)

/-- Python `s[:-n]` (for n at most the length). -/
def pyDropRight (s : String) (n : Nat) : String :=
  String.mk (s.data.take (s.data.length - n))

/-- Python `str.lower`. -/
def pyLower (s : String) : String := String.mk (s.data.map Char.toLower)

/-- Split a character list on a separator character. -/
def splitOnChar (c : Char) : List Char → List (List Char)
  | [] => [[]]
  | x :: xs =>
    let r := splitOnChar c xs
    if x = c then [] :: r
    else
      match r with
      | [] => [[x]]
      | y :: ys => (x :: y) :: ys

/-- Path components of a path string, with empty and `.` components removed
(the normal form pathlib keeps). -/
def splitPathSegs (s : String) : List String :=
  ((splitOnChar '/' s.data).map String.mk).filter (fun seg => !(seg == "") && !(seg == "."))

/-- Render an absolute path from its components. -/
def renderAbs (segs : List String) : String := "/" ++ String.intercalate "/" segs

/-- All proper ancestor directories of a path (what `parent.mkdir(parents=True)`
guarantees to exist afterwards). -/
def parentsOf (full : String) : List String :=
  let segs := splitPathSegs full
  (List.range segs.length).map (fun i => renderAbs (segs.take i))

/-- Last path component, `Path(...).name`. -/
def lastSeg (s : String) : String := ((splitPathSegs s).getLast?).getD ""

/-- Python `DATA_DIR / p`: an absolute right operand replaces the base. -/
def joinPath (base rel : String) : String :=
  if pyStartsWith rel "/" then rel else base ++ "/" ++ rel

/-- Extension of the last path component, as `Path(...).suffix`: the part from
the last dot, provided that dot is neither the first nor the last character. -/
def pySuffix (p : String) : String :=
  let nm := (lastSeg p).data
  match nm.reverse.findIdx? (fun c => c == '.') with
  | none => ""
  | some j =>
    let i := nm.length - 1 - j
    if 0 < i ∧ i < nm.length - 1 then String.mk (nm.drop i) else ""

/-- Left-aligned padding to a minimum width, Python `f"{s:<n}"`. -/
def padRight (s : String) (n : Nat) : String :=
  s ++ String.mk (List.replicate (n - s.length) ' ')

/-- Right-aligned padding to a minimum width, Python `f"{s:>n}"`. -/
def padLeft (s : String) (n : Nat) : String :=
  String.mk (List.replicate (n - s.length) ' ') ++ s

/-- Substring containment, used to state that a result text contains a value. -/
def strContains (s sub : String) : Prop := ∃ a b, s = a ++ sub ++ b

/-- Row dictionaries built by RealDictCursor: each row keyed by the queried
columns. -/
def rowObjects (cols : List String) (rows : List (List String)) :
    List (List (String × String)) :=
  rows.map (fun r => cols.zip r)

/-- JSON string rendering of a cell (quotation only; escaping not modelled). -/
def jsonQuote (s : String) : String := "\"" ++ s ++ "\""

/-- One `"key": "value"` JSON field. -/
def jsonField (kv : String × String) : String :=
  jsonQuote kv.1 ++ ": " ++ jsonQuote kv.2

/-- One JSON object for a row dictionary. -/
def jsonObjText (o : List (String × String)) : String :=
  "\x7b" ++ String.intercalate ", " (o.map jsonField) ++ "\x7d"

/-- The `json.dumps([dict(row) for row in rows], default=str)` text: a JSON
array of field-keyed row objects. -/
def jsonDumpsRows (cols : List String) (rows : List (List String)) : String :=
  "[" ++ String.intercalate ", " ((rowObjects cols rows).map jsonObjText) ++ "]"

/-- Python `Path.exists()`: true for files and directories. -/
def pathExists (fs : FS) (p : String) : Bool :=
  (fs.files.lookup p).isSome || fs.dirs.contains p

/-- Result type of one dispatched tool call: either a propagated exception or
the updated world together with the returned content blocks. -/
abbrev ToolOut := Except PyErr (World × List ContentBlock)

/-- The write_file tool (main.py lines 247-260): resolve the path under the
sandbox root, create missing parent directories, overwrite the file, and
confirm with the character count written.  Backend errors propagate.
`writeFs` is the filesystem effect: parent directories created, file
overwritten. -/
def writeFs (fs : FS) (file_path content : String) : FS :=
  { files := (file_path, content) :: fs.files.filter (fun kv => !(kv.1 == file_path))
    dirs := parentsOf file_path ++ fs.dirs }

/-- The write_file tool body (see the doc comment above `writeFileTool`). -/
def writeFileTool (args : Args) (w : World) : ToolOut :=
  match args.lookup "path" with
  | none => .error (.keyError "path")
  | some (.int _) | some (.list _) => .error (.typeError "path")
  | some (.str path) =>
  match args.lookup "content" with
  | none => .error (.keyError "content")
  | some (.int _) | some (.list _) => .error (.typeError "content")
  | some (.str content) =>
    if w.fs.dirs.contains (joinPath dataDirStr path) then
      .error (.isADirectory (joinPath dataDirStr path))
    else
      .ok ({ w with fs := writeFs w.fs (joinPath dataDirStr path) content },
        [ .text ("Successfully wrote " ++ toString content.length ++ " characters to " ++ path) ])

/-- The execute_sql tool (main.py lines 262-284): run the query with positional
parameters; a statement with a cursor description returns the rows as JSON,
any other statement is committed and reported by affected-row count.  Backend
errors propagate. -/
def executeSqlTool (args : Args) (w : World) : ToolOut :=
  match args.lookup "query" with
  | none => .error (.keyError "query")
  | some (.int _) | some (.list _) => .error (.typeError "query")
  | some (.str query) =>
  match (args.lookup "parameters").getD (.list []) with
  | .int _ | .str _ => .error (.typeError "parameters")
  | .list parameters =>
  match w.db.exec query parameters with
  | .err m => .error (.backend m)
  | .resultSet cols rows => .ok (w, [ .text (jsonDumpsRows cols rows) ])
  | .command pending n =>
      .ok ({ w with db := { w.db with tables := pending } },
        [ .text ("Query executed successfully. Rows affected: " ++ toString n) ])

/-- The cache_set tool (main.py lines 286-295): `redis.setex` then confirm,
echoing key and ttl.  The core never reads TTL state back, so only the value
is kept in the model. -/
def cacheSetTool (args : Args) (w : World) : ToolOut :=
  match args.lookup "key" with
  | none => .error (.keyError "key")
  | some (.int _) | some (.list _) => .error (.typeError "key")
  | some (.str key) =>
  match args.lookup "value" with
  | none => .error (.keyError "value")
  | some (.int _) | some (.list _) => .error (.typeError "value")
  | some (.str value) =>
  match (args.lookup "ttl").getD (.int 3600) with
  | .str _ | .list _ => .error (.typeError "ttl")
  | .int ttl =>
    .ok ({ w with cache := (key, value) :: w.cache.filter (fun kv => !(kv.1 == key)) },
      [ .text ("Set cache key \x27" ++ key ++ "\x27 with TTL " ++ toString ttl ++ " seconds") ])

/-- The cache_get tool (main.py lines 297-304): absence of the key is reported
as a textual message, not an error. -/
def cacheGetTool (args : Args) (w : World) : ToolOut :=
  match args.lookup "key" with
  | none => .error (.keyError "key")
  | some (.int _) | some (.list _) => .error (.typeError "key")
  | some (.str key) =>
  match w.cache.lookup key with
  | none => .ok (w, [ .text ("Cache key \x27" ++ key ++ "\x27 not found") ])
  | some value => .ok (w, [ .text ("Cache value for \x27" ++ key ++ "\x27: " ++ value) ])

/-- Directory holding a path (its components without the last one). -/
def parentDirOf (p : String) : String := renderAbs ((splitPathSegs p).dropLast)

/-- One line of list_directory output, `f"{item_type:9} {size:>10} {item.name}"`. -/
def dirEntryLine (itemType size nm : String) : String :=
  padRight itemType 9 ++ " " ++ padLeft size 10 ++ " " ++ nm

/-- The listing text built by iterating the directory: header, rule, and one
line per child (files then subdirectories; iteration order of the backend is
not specified). -/
def dirListingText (fs : FS) (dir_path : String) : String :=
  let dirNorm := renderAbs (splitPathSegs dir_path)
  let fileItems := (fs.files.filter (fun kv => parentDirOf kv.1 == dirNorm)).map
    (fun kv => dirEntryLine "file" (toString kv.2.utf8ByteSize) (lastSeg kv.1))
  let dirItems := (fs.dirs.filter (fun d => parentDirOf d == dirNorm && !(d == dirNorm))).map
    (fun d => dirEntryLine "directory" "-" (lastSeg d))
  String.intercalate "\n"
    (["Type      Size       Name", String.mk (List.replicate 30 '-')] ++ fileItems ++ dirItems)

/-- The list_directory tool (main.py lines 306-320): a missing directory is a
textual not-found message; iterating a non-directory raises.  Sizes are byte
counts for files and a placeholder dash for directories. -/
def listDirectoryTool (args : Args) (w : World) : ToolOut :=
  match (args.lookup "path").getD (.str ".") with
  | .int _ | .list _ => .error (.typeError "path")
  | .str path =>
    if !(pathExists w.fs (joinPath dataDirStr path)) then
      .ok (w, [ .text ("Directory not found: " ++ path) ])
    else if w.fs.dirs.contains (joinPath dataDirStr path) then
      .ok (w, [ .text (dirListingText w.fs (joinPath dataDirStr path)) ])
    else .error (.notADirectory (joinPath dataDirStr path))

/-- A loaded dataframe: header columns and data rows. -/
structure Df where
  cols : List String
  rows : List (List String)
  deriving DecidableEq

/-- A minimal model of `pandas.read_csv` on file content: the first non-blank
line is the header, the rest are rows; empty input and over-long rows fail
(EmptyDataError / ParserError).  Cell typing is not modelled. -/
def parseCsv (content : String) : Except String Df :=
  let lines := ((splitOnChar '\n' content.data).map String.mk).filter (fun l => !(l == ""))
  match lines with
  | [] => .error "No columns to parse from file"
  | header :: rest =>
    let cols := (splitOnChar ',' header.data).map String.mk
    let rows := rest.map (fun l => (splitOnChar ',' l.data).map String.mk)
    if rows.all (fun r => r.length ≤ cols.length) then .ok { cols := cols, rows := rows }
    else .error "Error tokenizing data"

/-- Python list repr of the column names, as in `f"{list(df.columns)}"`. -/
def pyListRepr (xs : List String) : String :=
  "[" ++ String.intercalate ", " (xs.map (fun s => "\x27" ++ s ++ "\x27")) ++ "]"

/-- Shape display `(rows, cols)`. -/
def shapeText (df : Df) : String :=
  "(" ++ toString df.rows.length ++ ", " ++ toString df.cols.length ++ ")"

/-- Dtype display; the pandas per-column dtype inference is abstracted (every
column rendered as object). -/
def dtypesText (df : Df) : String :=
  String.intercalate "\n" (df.cols.map (fun c => c ++ "    object"))

/-- Text of the summary analysis. -/
def summaryText (fp : String) (df : Df) : String :=
  "Dataset Summary for " ++ fp ++ ":\n" ++ "Shape: " ++ shapeText df ++ "\n" ++
    "Columns: " ++ pyListRepr df.cols ++ "\n" ++ "Data types:\n" ++ dtypesText df

/-- Text of the head analysis (first 10 rows; the pandas table layout is
abstracted to space-joined cells). -/
def headText (fp : String) (df : Df) : String :=
  "First 10 rows of " ++ fp ++ ":\n" ++
    String.intercalate "\n" ((df.rows.take 10).map (String.intercalate " "))

/-- Text of the info analysis (pandas buffer rendering abstracted). -/
def infoText (fp : String) (df : Df) : String :=
  "Dataset info for " ++ fp ++ ":\n" ++ String.intercalate "\n"
    (df.cols.map (fun c => c ++ " " ++ toString df.rows.length ++ " non-null object"))

/-- Text of the describe analysis (pandas statistics abstracted). -/
def describeText (fp : String) (df : Df) : String :=
  "Statistical summary for " ++ fp ++ ":\n" ++ "count " ++ toString df.rows.length

/-- Message of the UnboundLocalError Python raises when the if/elif chain of
analyze_data assigns no `result` for an unmatched analysis_type. -/
def unboundLocalMsg : String :=
  "cannot access local variable \x27result\x27 where it is not associated with a value"

/-- Body of the analyze_data try block after loading succeeds: the if/elif
chain on analysis_type; an unmatched type leaves `result` unassigned, which
raises when the return statement reads it. -/
def analyzeBody (file_path analysis_type : String) (df : Df) : Except String String :=
  if analysis_type == "summary" then .ok (summaryText file_path df)
  else if analysis_type == "head" then .ok (headText file_path df)
  else if analysis_type == "info" then .ok (infoText file_path df)
  else if analysis_type == "describe" then .ok (describeText file_path df)
  else .error unboundLocalMsg

/-- The analyze_data tool (main.py lines 322-351): a missing file is a textual
not-found message; everything inside the try block (CSV parsing, the analysis
chain, reading `result`) is caught and converted to soft error text.  The
single catch-all except of the source is distributed over the failure sites
of the try body, which is observationally identical. -/
def analyzeDataTool (args : Args) (w : World) : ToolOut :=
  match args.lookup "file_path" with
  | none => .error (.keyError "file_path")
  | some (.int _) | some (.list _) => .error (.typeError "file_path")
  | some (.str file_path) =>
  match (args.lookup "analysis_type").getD (.str "summary") with
  | .int _ | .list _ => .error (.typeError "analysis_type")
  | .str analysis_type =>
    if !(pathExists w.fs (joinPath dataDirStr file_path)) then
      .ok (w, [ .text ("File not found: " ++ file_path) ])
    else
      match w.fs.files.lookup (joinPath dataDirStr file_path) with
      | none =>
        .ok (w, [ .text ("Error analyzing data: " ++
          ("[Errno 21] Is a directory: " ++ joinPath dataDirStr file_path)) ])
      | some content =>
        match parseCsv content with
        | .error m => .ok (w, [ .text ("Error analyzing data: " ++ m) ])
        | .ok df =>
          match analyzeBody file_path analysis_type df with
          | .ok result => .ok (w, [ .text result ])
          | .error m => .ok (w, [ .text ("Error analyzing data: " ++ m) ])

/-- The six registered tool names of the dispatcher. -/
def toolNames : List String :=
  ["write_file", "execute_sql", "cache_set", "cache_get", "list_directory", "analyze_data"]

/-- The tool dispatcher handle_call_tool (main.py lines 243-354): route by name
through the if/elif chain; an unregistered name raises ValueError(Unknown
tool). -/
def callTool (name : String) (arguments : Args) (w : World) : ToolOut :=
  if name == "write_file" then writeFileTool arguments w
  else if name == "execute_sql" then executeSqlTool arguments w
  else if name == "cache_set" then cacheSetTool arguments w
  else if name == "cache_get" then cacheGetTool arguments w
  else if name == "list_directory" then listDirectoryTool arguments w
  else if name == "analyze_data" then analyzeDataTool arguments w
  else .error (.unknownTool name)

/-- The query text the resource reader interpolates the table name into. -/
def buildSelect (table_name : String) : String :=
  "SELECT * FROM " ++ table_name ++ " LIMIT 100"

/-- The resource reader handle_read_resource (main.py lines 100-127): dispatch
on the URI scheme; file content is returned whole, a db table is read through
the interpolated SELECT, anything else raises ValueError(Unsupported URI
scheme). -/
def readResource (w : World) (uri : String) : Except PyErr String :=
  if pyStartsWith uri "file://" then
    let file_path := pyDrop uri 7
    match w.fs.files.lookup file_path with
    | some content => .ok content
    | none =>
      if w.fs.dirs.contains file_path then .error (.isADirectory file_path)
      else .error (.notFound file_path)
  else if pyStartsWith uri "db://table/" then
    let table_name := pyDrop uri 11
    match w.db.exec (buildSelect table_name) [] with
    | .resultSet cols rows => .ok (jsonDumpsRows cols rows)
    | .command _ _ => .error (.backend "no results to fetch")
    | .err m => .error (.backend m)
  else .error (.unsupportedScheme uri)

/-- A resource descriptor as produced by handle_list_resources. -/
structure Resource where
  uri : String
  name : String
  description : String
  mimeType : String
  deriving DecidableEq

/-- Descriptor of one sandbox file (main.py lines 67-72). -/
def fileResource (kv : String × String) : Resource :=
  { uri := "file://" ++ kv.1
    name := lastSeg kv.1
    description := "File: " ++ pyDrop kv.1 (dataDirStr.length + 1)
    mimeType :=
      if [".txt", ".csv", ".json"].contains (pySuffix kv.1) then "text/plain"
      else "application/octet-stream" }

/-- The file half of the catalog: every regular file under the sandbox root,
guarded by `DATA_DIR.exists()` (main.py lines 64-72). -/
def fileResPart (w : World) : List Resource :=
  if pathExists w.fs dataDirStr then
    (w.fs.files.filter (fun kv => pyStartsWith kv.1 (dataDirStr ++ "/"))).map fileResource
  else []

/-- Descriptor of one introspected database table (main.py lines 85-91). -/
def tableResource (t : Table) : Resource :=
  { uri := "db://table/" ++ t.name
    name := t.name
    description := "Database " ++ pyLower t.ttype ++ ": " ++ t.name
    mimeType := "application/x-sql" }

/-- The database half of the catalog; introspection failure is caught and
yields no table descriptors (main.py lines 74-95). -/
def dbResPart (w : World) : List Resource :=
  if w.db.introspectOk then w.db.tables.map tableResource else []

/-- The resource catalog handle_list_resources (main.py lines 59-97). -/
def listResources (w : World) : List Resource := fileResPart w ++ dbResPart w

/-- A mini model of the PostgreSQL backend for the one query shape the
resource reader builds by string interpolation: the statement is accepted only
when the interpolated table name is a valid unquoted identifier naming a
table.  A listed table whose name needs quoting (for example one containing a
space) therefore fails, which is exactly the unescaped-identifier defect the
repository carries at main.py line 120. -/
def validIdent (s : String) : Bool :=
  match s.data with
  | [] => false
  | c :: cs => (c.isAlpha || c == '_') && cs.all (fun d => d.isAlphanum || d == '_')

/-- Execution oracle of the mini PostgreSQL model. -/
def pgExec (tables : List Table) (q : String) (ps : List PyVal) : ExecOutcome :=
  if pyStartsWith q "SELECT * FROM " && pyEndsWith q " LIMIT 100" && ps.isEmpty then
    let n := pyDropRight (pyDrop q 14) 10
    if validIdent n then
      match tables.find? (fun t => t.name == n) with
      | some t => .resultSet t.cols (t.rows.take 100)
      | none => .err ("relation \"" ++ n ++ "\" does not exist")
    else .err ("syntax error at or near \"" ++ n ++ "\"")
  else .err "query shape not modelled"

/-- Boolean success test on a read result. -/
def readIsOk (r : Except PyErr String) : Bool :=
  match r with
  | .ok _ => true
  | .error _ => false

/-- Text of the single block of a successful ToolResult, if it has that shape. -/
def soleText (r : ToolOut) : Option String :=
  match r with
  | .ok (_, [ContentBlock.text s]) => some s
  | _ => none

/-! ### Concrete worlds used by witnesses and counterexamples -/

/-- An empty backend world. -/
def w0 : World :=
  { fs := { files := [], dirs := [] }
    db := { tables := [], introspectOk := true, exec := fun _ _ => ExecOutcome.err "db unavailable" }
    cache := [] }

/-- The world after writing a.txt with content hi into `w0`. -/
def w0a : World :=
  { w0 with fs := { files := [("/app/data/a.txt", "hi")], dirs := ["/", "/app", "/app/data"] } }

/-- A table whose name needs quoting: PostgreSQL admits it (quoted), and
introspection reports it verbatim, but the interpolated read query breaks. -/
def tbad : Table := { name := "my table", ttype := "BASE TABLE", cols := ["id"], rows := [["1"]] }

/-- A world whose database holds only `tbad`. -/
def wbad : World :=
  { fs := { files := [], dirs := [] }
    db := { tables := [tbad], introspectOk := true, exec := pgExec [tbad] }
    cache := [] }

/-- A well-named table. -/
def tgood : Table := { name := "users", ttype := "BASE TABLE", cols := ["id"], rows := [["1"]] }

/-- A world with one sandbox file and one well-named table. -/
def wgood : World :=
  { fs := { files := [("/app/data/a.txt", "hi")], dirs := ["/", "/app", "/app/data"] }
    db := { tables := [tgood], introspectOk := true, exec := pgExec [tgood] }
    cache := [] }

/-- A world holding one cache entry. -/
def wcache : World := { w0 with cache := [("k", "v")] }

/-- A world with introspection failing and one sandbox file present. -/
def wnointro : World :=
  { fs := { files := [("/app/data/a.txt", "hi")], dirs := ["/", "/app", "/app/data"] }
    db := { tables := [tgood], introspectOk := false, exec := pgExec [tgood] }
    cache := [] }

/-- A world with one CSV file in the sandbox. -/
def wcsv : World :=
  { w0 with fs := { files := [("/app/data/d.csv", "a,b\n1,2")], dirs := ["/", "/app", "/app/data"] } }

/-- A world whose database understands one SELECT and one DELETE, used to
exercise both execute_sql result shapes. -/
def wsql : World :=
  { w0 with db :=
    { tables := [tgood], introspectOk := true
      exec := fun q ps =>
        if q == "SELECT id FROM users" && ps.isEmpty then
          ExecOutcome.resultSet ["id"] [["1"], ["2"]]
        else if q == "DELETE FROM users" && ps.isEmpty then
          ExecOutcome.command [] 2
        else ExecOutcome.err "unmodelled" } }

/-! ### Helper lemmas -/

theorem pyStartsWith_append (p s : String) : pyStartsWith (p ++ s) p = true := by
  simp [pyStartsWith, String.data_append]

theorem pyStartsWith_append3 (p s t : String) : pyStartsWith (p ++ s ++ t) p = true := by
  simp [pyStartsWith, String.data_append, List.append_assoc]

theorem pyEndsWith_append3 (p s t : String) : pyEndsWith (p ++ s ++ t) t = true := by
  simp only [pyEndsWith, String.data_append, List.isSuffixOf_iff_suffix, ← List.append_assoc]
  exact List.suffix_append _ _

theorem pyDrop_append (p s : String) (n : Nat) (h : p.data.length = n) :
    pyDrop (p ++ s) n = s := by
  subst h
  simp [pyDrop, String.data_append, List.drop_left]

theorem pyDropRight_append (s t : String) (n : Nat) (h : t.data.length = n) :
    pyDropRight (s ++ t) n = s := by
  subst h
  simp [pyDropRight, String.data_append, List.take_left']

theorem lookup_isSome_of_mem {β : Type} {k : String} {v : β} {l : List (String × β)}
    (h : (k, v) ∈ l) : (l.lookup k).isSome = true := by
  rw [List.lookup_isSome_iff]
  exact ⟨(k, v), h, by simp⟩

theorem extract_table_name (n : String) :
    pyDropRight (pyDrop ("SELECT * FROM " ++ n ++ " LIMIT 100") 14) 10 = n := by
  have h2 : ("SELECT * FROM " ++ n ++ " LIMIT 100")
      = "SELECT * FROM " ++ (n ++ " LIMIT 100") := by
    simp [String.append_assoc]
  rw [h2, pyDrop_append "SELECT * FROM " (n ++ " LIMIT 100") 14 (by rfl),
    pyDropRight_append n " LIMIT 100" 10 (by rfl)]

/-! ### Shape of each tool handler: successful results are a single text
block, and no handler ever raises the Unknown tool error -/

theorem writeFileTool_shape (args : Args) (w : World) :
    (∀ w2 bs, writeFileTool args w = .ok (w2, bs) → ∃ s, bs = [ContentBlock.text s]) ∧
    (∀ e, writeFileTool args w = .error e → ∀ m, e ≠ PyErr.unknownTool m) := by
  constructor
  · intro w2 bs h
    unfold writeFileTool at h
    iterate 10 (all_goals (try split at h))
    all_goals (first
      | (injection h with h; simp only [Prod.mk.injEq] at h; exact ⟨_, h.2.symm⟩)
      | injection h)
  · intro e h m
    unfold writeFileTool at h
    iterate 10 (all_goals (try split at h))
    all_goals (first
      | (injection h with h; subst h; simp)
      | injection h)

theorem executeSqlTool_shape (args : Args) (w : World) :
    (∀ w2 bs, executeSqlTool args w = .ok (w2, bs) → ∃ s, bs = [ContentBlock.text s]) ∧
    (∀ e, executeSqlTool args w = .error e → ∀ m, e ≠ PyErr.unknownTool m) := by
  constructor
  · intro w2 bs h
    unfold executeSqlTool at h
    iterate 10 (all_goals (try split at h))
    all_goals (first
      | (injection h with h; simp only [Prod.mk.injEq] at h; exact ⟨_, h.2.symm⟩)
      | injection h)
  · intro e h m
    unfold executeSqlTool at h
    iterate 10 (all_goals (try split at h))
    all_goals (first
      | (injection h with h; subst h; simp)
      | injection h)

theorem cacheSetTool_shape (args : Args) (w : World) :
    (∀ w2 bs, cacheSetTool args w = .ok (w2, bs) → ∃ s, bs = [ContentBlock.text s]) ∧
    (∀ e, cacheSetTool args w = .error e → ∀ m, e ≠ PyErr.unknownTool m) := by
  constructor
  · intro w2 bs h
    unfold cacheSetTool at h
    iterate 10 (all_goals (try split at h))
    all_goals (first
      | (injection h with h; simp only [Prod.mk.injEq] at h; exact ⟨_, h.2.symm⟩)
      | injection h)
  · intro e h m
    unfold cacheSetTool at h
    iterate 10 (all_goals (try split at h))
    all_goals (first
      | (injection h with h; subst h; simp)
      | injection h)

theorem cacheGetTool_shape (args : Args) (w : World) :
    (∀ w2 bs, cacheGetTool args w = .ok (w2, bs) → ∃ s, bs = [ContentBlock.text s]) ∧
    (∀ e, cacheGetTool args w = .error e → ∀ m, e ≠ PyErr.unknownTool m) := by
  constructor
  · intro w2 bs h
    unfold cacheGetTool at h
    iterate 10 (all_goals (try split at h))
    all_goals (first
      | (injection h with h; simp only [Prod.mk.injEq] at h; exact ⟨_, h.2.symm⟩)
      | injection h)
  · intro e h m
    unfold cacheGetTool at h
    iterate 10 (all_goals (try split at h))
    all_goals (first
      | (injection h with h; subst h; simp)
      | injection h)

theorem listDirectoryTool_shape (args : Args) (w : World) :
    (∀ w2 bs, listDirectoryTool args w = .ok (w2, bs) → ∃ s, bs = [ContentBlock.text s]) ∧
    (∀ e, listDirectoryTool args w = .error e → ∀ m, e ≠ PyErr.unknownTool m) := by
  constructor
  · intro w2 bs h
    unfold listDirectoryTool at h
    iterate 10 (all_goals (try split at h))
    all_goals (first
      | (injection h with h; simp only [Prod.mk.injEq] at h; exact ⟨_, h.2.symm⟩)
      | injection h)
  · intro e h m
    unfold listDirectoryTool at h
    iterate 10 (all_goals (try split at h))
    all_goals (first
      | (injection h with h; subst h; simp)
      | injection h)

theorem analyzeDataTool_shape (args : Args) (w : World) :
    (∀ w2 bs, analyzeDataTool args w = .ok (w2, bs) → ∃ s, bs = [ContentBlock.text s]) ∧
    (∀ e, analyzeDataTool args w = .error e → ∀ m, e ≠ PyErr.unknownTool m) := by
  constructor
  · intro w2 bs h
    unfold analyzeDataTool at h
    iterate 10 (all_goals (try split at h))
    all_goals (first
      | (injection h with h; simp only [Prod.mk.injEq] at h; exact ⟨_, h.2.symm⟩)
      | injection h)
  · intro e h m
    unfold analyzeDataTool at h
    iterate 10 (all_goals (try split at h))
    all_goals (first
      | (injection h with h; subst h; simp)
      | injection h)

/-! ### Claim C4 -/

/-- C4: whenever call_tool returns rather than raises, its ToolResult is a
sequence of exactly one text content block, failures included. -/
theorem call_tool_single_text_block (name : String) (args : Args) (w : World)
    (w2 : World) (bs : List ContentBlock)
    (h : callTool name args w = .ok (w2, bs)) : ∃ s, bs = [ContentBlock.text s] := by
  unfold callTool at h
  iterate 7 (all_goals (try split at h))
  all_goals (first
    | exact (writeFileTool_shape args w).1 _ _ h
    | exact (executeSqlTool_shape args w).1 _ _ h
    | exact (cacheSetTool_shape args w).1 _ _ h
    | exact (cacheGetTool_shape args w).1 _ _ h
    | exact (listDirectoryTool_shape args w).1 _ _ h
    | exact (analyzeDataTool_shape args w).1 _ _ h
    | injection h)

/-- Witness for C4: a concrete successful call returns one text block. -/
theorem call_tool_single_text_block_witness :
    callTool "cache_get" [("key", PyVal.str "k")] w0
        = Except.ok (w0, [ContentBlock.text "Cache key \x27k\x27 not found"]) ∧
    ∃ s, [ContentBlock.text "Cache key \x27k\x27 not found"] = [ContentBlock.text s] :=
  ⟨rfl, call_tool_single_text_block "cache_get" [("key", PyVal.str "k")] w0 w0 _ rfl⟩

/-! ### Claim C1 -/

/-- C1 (amended): the dispatcher fails with the Unknown tool error exactly on
unregistered names -- an unregistered name always raises it, and a call with a
registered name never produces it (though it may raise other hard errors such
as KeyError on missing arguments or propagated backend failures). -/
theorem unknown_tool_iff_unregistered (name : String) (args : Args) (w : World) :
    (name ∉ toolNames → callTool name args w = .error (.unknownTool name)) ∧
    (name ∈ toolNames → ∀ e, callTool name args w = .error e → ∀ m, e ≠ PyErr.unknownTool m) := by
  constructor
  · intro hn
    simp only [toolNames, List.mem_cons, List.not_mem_nil, or_false, not_or] at hn
    obtain ⟨n1, n2, n3, n4, n5, n6⟩ := hn
    simp [callTool, beq_iff_eq, n1, n2, n3, n4, n5, n6]
  · intro hn e h m
    simp only [toolNames, List.mem_cons, List.not_mem_nil, or_false] at hn
    rcases hn with rfl | rfl | rfl | rfl | rfl | rfl
    · exact (writeFileTool_shape args w).2 e h m
    · exact (executeSqlTool_shape args w).2 e h m
    · exact (cacheSetTool_shape args w).2 e h m
    · exact (cacheGetTool_shape args w).2 e h m
    · exact (listDirectoryTool_shape args w).2 e h m
    · exact (analyzeDataTool_shape args w).2 e h m

/-- Counterexample for C1 as frozen: write_file is a registered name, yet
calling it with empty arguments raises a hard KeyError (not an Unknown tool
error and not a soft text result), because the handler reads
`arguments["path"]` without validation.  So a call with a registered name can
fail with a hard error. -/
theorem registered_tool_hard_error_cex :
    "write_file" ∈ toolNames ∧
    callTool "write_file" [] w0 = Except.error (PyErr.keyError "path") :=
  ⟨by decide, rfl⟩

/-- Witness for C1 (amended): an unregistered name raises Unknown tool, and a
hard error of a registered call is not an Unknown tool error. -/
theorem unknown_tool_iff_unregistered_witness :
    ("nonexistent_tool" ∉ toolNames ∧
      callTool "nonexistent_tool" [] w0 = Except.error (PyErr.unknownTool "nonexistent_tool")) ∧
    ("write_file" ∈ toolNames ∧
      PyErr.keyError "path" ≠ PyErr.unknownTool "nonexistent_tool") :=
  ⟨⟨by decide, (unknown_tool_iff_unregistered "nonexistent_tool" [] w0).1 (by decide)⟩,
    ⟨by decide,
      (unknown_tool_iff_unregistered "write_file" [] w0).2 (by decide)
        (PyErr.keyError "path") rfl "nonexistent_tool"⟩⟩

/-! ### Claim C2 -/

/-- C2: a successful write_file of content c at path p followed by
read_resource of the URI of the written file returns exactly c; the write
overwrites whatever was at that path before (the initial world is arbitrary),
all parent directories of the file exist afterwards, and the confirmation
text reports the character count of c.  Stated for every path p; the claim
only needs relative ones. -/
theorem write_file_read_resource_roundtrip (w : World) (p c : String)
    (w2 : World) (bs : List ContentBlock)
    (h : callTool "write_file" [("path", PyVal.str p), ("content", PyVal.str c)] w
      = Except.ok (w2, bs)) :
    readResource w2 ("file://" ++ joinPath dataDirStr p) = Except.ok c ∧
    bs = [ContentBlock.text ("Successfully wrote " ++ toString c.length ++ " characters to " ++ p)] ∧
    (∀ d ∈ parentsOf (joinPath dataDirStr p), d ∈ w2.fs.dirs) ∧
    w2.fs.files.lookup (joinPath dataDirStr p) = some c := by
  have h1 : callTool "write_file" [("path", PyVal.str p), ("content", PyVal.str c)] w
      = if w.fs.dirs.contains (joinPath dataDirStr p) then
          Except.error (PyErr.isADirectory (joinPath dataDirStr p))
        else Except.ok ({ w with fs := writeFs w.fs (joinPath dataDirStr p) c },
          [ContentBlock.text ("Successfully wrote " ++ toString c.length ++ " characters to " ++ p)]) := rfl
  rw [h1] at h
  split at h
  · exact absurd h (by simp)
  · injection h with h
    simp only [Prod.mk.injEq] at h
    obtain ⟨hw, hbs⟩ := h
    subst hw
    subst hbs
    refine ⟨?_, rfl, ?_, ?_⟩
    · unfold readResource
      simp [pyStartsWith_append, pyDrop_append "file://" (joinPath dataDirStr p) 7 (by rfl),
        writeFs, List.lookup]
    · intro d hd
      simp [writeFs, List.mem_append]
      exact Or.inl hd
    · simp [writeFs, List.lookup]

/-- Witness for C2: writing a.txt with content hi into the empty world and
reading it back through its file URI. -/
theorem write_file_read_resource_roundtrip_witness :
    callTool "write_file" [("path", PyVal.str "a.txt"), ("content", PyVal.str "hi")] w0
        = Except.ok (w0a, [ContentBlock.text "Successfully wrote 2 characters to a.txt"]) ∧
    readResource w0a "file:///app/data/a.txt" = Except.ok "hi" :=
  ⟨rfl,
    (write_file_read_resource_roundtrip w0 "a.txt" "hi" w0a
      [ContentBlock.text "Successfully wrote 2 characters to a.txt"] rfl).1⟩

/-! ### Claim C8 -/

/-- C8: read_resource on a URI that starts with neither of the two supported
schemes always fails with the hard Unsupported URI scheme error. -/
theorem read_resource_unsupported_scheme (w : World) (uri : String)
    (h1 : pyStartsWith uri "file://" = false)
    (h2 : pyStartsWith uri "db://table/" = false) :
    readResource w uri = Except.error (PyErr.unsupportedScheme uri) := by
  unfold readResource
  simp [h1, h2]

/-- Witness for C8 at a concrete unsupported URI. -/
theorem read_resource_unsupported_scheme_witness :
    pyStartsWith "http://example.com" "file://" = false ∧
    pyStartsWith "http://example.com" "db://table/" = false ∧
    readResource w0 "http://example.com"
      = Except.error (PyErr.unsupportedScheme "http://example.com") :=
  ⟨by decide, by decide,
    read_resource_unsupported_scheme w0 "http://example.com" (by decide) (by decide)⟩

/-! ### Claim C7 -/

/-- C7: cache_get with a key argument never fails: a held value is returned in
the result text (which contains the value), an absent key yields a textual
not-found message. -/
theorem cache_get_never_errors (w : World) (k : String) :
    (w.cache.lookup k = none →
      callTool "cache_get" [("key", PyVal.str k)] w
        = Except.ok (w, [ContentBlock.text ("Cache key \x27" ++ k ++ "\x27 not found")])) ∧
    (∀ v, w.cache.lookup k = some v →
      callTool "cache_get" [("key", PyVal.str k)] w
        = Except.ok (w, [ContentBlock.text ("Cache value for \x27" ++ k ++ "\x27: " ++ v)]) ∧
      strContains ("Cache value for \x27" ++ k ++ "\x27: " ++ v) v) := by
  have h1 : callTool "cache_get" [("key", PyVal.str k)] w
      = (match w.cache.lookup k with
        | none => Except.ok (w, [ContentBlock.text ("Cache key \x27" ++ k ++ "\x27 not found")])
        | some value =>
          Except.ok (w, [ContentBlock.text ("Cache value for \x27" ++ k ++ "\x27: " ++ value)])) := rfl
  constructor
  · intro hn
    rw [h1, hn]
  · intro v hv
    rw [h1, hv]
    refine ⟨rfl, "Cache value for \x27" ++ k ++ "\x27: ", "", ?_⟩
    apply String.ext
    simp [String.data_append]

/-- Witness for C7: both branches at concrete worlds. -/
theorem cache_get_never_errors_witness :
    (w0.cache.lookup "k" = none ∧
      callTool "cache_get" [("key", PyVal.str "k")] w0
        = Except.ok (w0, [ContentBlock.text "Cache key \x27k\x27 not found"])) ∧
    (wcache.cache.lookup "k" = some "v" ∧
      callTool "cache_get" [("key", PyVal.str "k")] wcache
        = Except.ok (wcache, [ContentBlock.text "Cache value for \x27k\x27: v"])) :=
  ⟨⟨rfl, (cache_get_never_errors w0 "k").1 rfl⟩,
    ⟨rfl, ((cache_get_never_errors wcache "k").2 "v" rfl).1⟩⟩

/-! ### Claim C6 -/

/-- C6: when database introspection fails, list_resources still returns (no
propagated error in the model, which is total) and the catalog is exactly the
file resources: database descriptors are simply omitted. -/
theorem list_resources_partial_on_db_failure (w : World)
    (h : w.db.introspectOk = false) :
    listResources w = fileResPart w := by
  unfold listResources dbResPart
  rw [h]
  simp

/-- Witness for C6: a world with one sandbox file and failing introspection
lists exactly that file. -/
theorem list_resources_partial_on_db_failure_witness :
    wnointro.db.introspectOk = false ∧
    listResources wnointro = fileResPart wnointro ∧
    fileResPart wnointro = [fileResource ("/app/data/a.txt", "hi")] :=
  ⟨rfl, list_resources_partial_on_db_failure wnointro rfl, rfl⟩

/-! ### Claim C10 -/

/-- C10: when the sandbox root does not exist, list_resources does not fail
(the model is total) and returns no file descriptors: only whatever the
database half of the catalog yields. -/
theorem list_resources_missing_data_dir (w : World)
    (h : pathExists w.fs dataDirStr = false) :
    listResources w = dbResPart w := by
  unfold listResources fileResPart
  rw [h]
  simp

/-- Witness for C10: the empty world has no sandbox root and lists nothing
but the (empty) database part. -/
theorem list_resources_missing_data_dir_witness :
    pathExists w0.fs dataDirStr = false ∧
    listResources w0 = dbResPart w0 :=
  ⟨rfl, list_resources_missing_data_dir w0 rfl⟩

/-! ### Claim C5 -/

/-- C5: execute_sql defaults an absent parameters argument to the empty list
(the hypothesis only fixes the arguments mapping; the executed call passes []
to the backend); a statement yielding rows returns the JSON array of
field-keyed row objects; any other statement commits the pending effects and
reports the affected-row count.  The third part states that the row objects
of the JSON rendering are keyed exactly by the queried columns. -/
theorem execute_sql_behavior (w : World) (args : Args) (q : String)
    (hq : args.lookup "query" = some (PyVal.str q))
    (hp : args.lookup "parameters" = none) :
    (∀ cols rows, w.db.exec q [] = ExecOutcome.resultSet cols rows →
      callTool "execute_sql" args w = Except.ok (w, [ContentBlock.text (jsonDumpsRows cols rows)])) ∧
    (∀ pending n, w.db.exec q [] = ExecOutcome.command pending n →
      callTool "execute_sql" args w
        = Except.ok ({ w with db := { w.db with tables := pending } },
          [ContentBlock.text ("Query executed successfully. Rows affected: " ++ toString n)])) ∧
    (∀ cols rows, (∀ r ∈ rows, r.length = cols.length) →
      ∀ o ∈ rowObjects cols rows, o.map Prod.fst = cols) := by
  have h1 : callTool "execute_sql" args w = executeSqlTool args w := rfl
  refine ⟨?_, ?_, ?_⟩
  · intro cols rows hexec
    rw [h1]
    unfold executeSqlTool
    rw [hq, hp]
    simp [hexec]
  · intro pending n hexec
    rw [h1]
    unfold executeSqlTool
    rw [hq, hp]
    simp [hexec]
  · intro cols rows hlen o ho
    rcases List.mem_map.mp ho with ⟨r, hr, rfl⟩
    exact List.map_fst_zip _ _ (le_of_eq (hlen r hr).symm)

/-- Witness for C5: a SELECT returning two rows and a DELETE affecting two
rows against a concrete backend, with the parameters argument absent. -/
theorem execute_sql_behavior_witness :
    ([("query", PyVal.str "SELECT id FROM users")].lookup "query"
        = some (PyVal.str "SELECT id FROM users") ∧
      [("query", PyVal.str "SELECT id FROM users")].lookup "parameters" = none ∧
      callTool "execute_sql" [("query", PyVal.str "SELECT id FROM users")] wsql
        = Except.ok (wsql, [ContentBlock.text (jsonDumpsRows ["id"] [["1"], ["2"]])])) ∧
    callTool "execute_sql" [("query", PyVal.str "DELETE FROM users")] wsql
      = Except.ok ({ wsql with db := { wsql.db with tables := [] } },
        [ContentBlock.text "Query executed successfully. Rows affected: 2"]) :=
  ⟨⟨rfl, rfl,
      (execute_sql_behavior wsql [("query", PyVal.str "SELECT id FROM users")]
        "SELECT id FROM users" rfl rfl).1 ["id"] [["1"], ["2"]] rfl⟩,
    (execute_sql_behavior wsql [("query", PyVal.str "DELETE FROM users")]
      "DELETE FROM users" rfl rfl).2.1 [] 2 rfl⟩

/-! ### Claim C9 -/

/-- C9: analyze_data on an existing file with an analysis_type outside the
four supported ones still returns a single soft text block, and that text is
an Error analyzing data message (the unassigned `result` raises inside the
try block and the catch-all softens it); it never raises a hard error and
never returns analysis output. -/
theorem analyze_data_unknown_analysis_soft_error (w : World) (fp atype c : String)
    (hfile : w.fs.files.lookup (joinPath dataDirStr fp) = some c)
    (ha : (atype == "summary") = false) (hb : (atype == "head") = false)
    (hc : (atype == "info") = false) (hd : (atype == "describe") = false) :
    (soleText (callTool "analyze_data"
        [("file_path", PyVal.str fp), ("analysis_type", PyVal.str atype)] w)).isSome = true ∧
    pyStartsWith ((soleText (callTool "analyze_data"
        [("file_path", PyVal.str fp), ("analysis_type", PyVal.str atype)] w)).getD "")
      "Error analyzing data: " = true := by
  have h1 : callTool "analyze_data" [("file_path", PyVal.str fp), ("analysis_type", PyVal.str atype)] w
      = analyzeDataTool [("file_path", PyVal.str fp), ("analysis_type", PyVal.str atype)] w := rfl
  have h2 : analyzeDataTool [("file_path", PyVal.str fp), ("analysis_type", PyVal.str atype)] w
      = if !(pathExists w.fs (joinPath dataDirStr fp)) then
          Except.ok (w, [ContentBlock.text ("File not found: " ++ fp)])
        else
          match w.fs.files.lookup (joinPath dataDirStr fp) with
          | none =>
            Except.ok (w, [ContentBlock.text ("Error analyzing data: " ++
              ("[Errno 21] Is a directory: " ++ joinPath dataDirStr fp))])
          | some content =>
            match parseCsv content with
            | .error m => Except.ok (w, [ContentBlock.text ("Error analyzing data: " ++ m)])
            | .ok df =>
              match analyzeBody fp atype df with
              | .ok result => Except.ok (w, [ContentBlock.text result])
              | .error m => Except.ok (w, [ContentBlock.text ("Error analyzing data: " ++ m)]) := rfl
  have hex : pathExists w.fs (joinPath dataDirStr fp) = true := by
    simp [pathExists, hfile]
  have key : ∃ m, analyzeDataTool [("file_path", PyVal.str fp), ("analysis_type", PyVal.str atype)] w
      = Except.ok (w, [ContentBlock.text ("Error analyzing data: " ++ m)]) := by
    rw [h2]
    cases hcsv : parseCsv c with
    | error m =>
      refine ⟨m, ?_⟩
      simp [hex, hfile, hcsv]
    | ok df =>
      refine ⟨unboundLocalMsg, ?_⟩
      simp [hex, hfile, hcsv, analyzeBody, ha, hb, hc, hd]
  obtain ⟨m, hm⟩ := key
  rw [h1, hm]
  exact ⟨rfl, pyStartsWith_append "Error analyzing data: " m⟩

/-- Witness for C9: an existing two-column CSV analysed with the unsupported
type median yields a soft Error analyzing data text. -/
theorem analyze_data_unknown_analysis_soft_error_witness :
    wcsv.fs.files.lookup (joinPath dataDirStr "d.csv") = some "a,b\n1,2" ∧
    (soleText (callTool "analyze_data"
        [("file_path", PyVal.str "d.csv"), ("analysis_type", PyVal.str "median")] wcsv)).isSome
      = true ∧
    pyStartsWith ((soleText (callTool "analyze_data"
        [("file_path", PyVal.str "d.csv"), ("analysis_type", PyVal.str "median")] wcsv)).getD "")
      "Error analyzing data: " = true :=
  ⟨rfl,
    (analyze_data_unknown_analysis_soft_error wcsv "d.csv" "median" "a,b\n1,2"
      rfl rfl rfl rfl rfl).1,
    (analyze_data_unknown_analysis_soft_error wcsv "d.csv" "median" "a,b\n1,2"
      rfl rfl rfl rfl rfl).2⟩

/-! ### Claim C3 -/

/-- C3 (amended): with the backend behaving as PostgreSQL on the interpolated
table-read query, every descriptor returned by one enumeration of
list_resources can be read back by read_resource, provided every listed
table name is a valid unquoted identifier.  Without that proviso the claim
fails, because the table name is interpolated unescaped into the query (see
the counterexample). -/
theorem listed_resources_readable (w : World)
    (hpg : w.db.exec = pgExec w.db.tables)
    (hval : ∀ t ∈ w.db.tables, validIdent t.name = true) :
    ∀ r ∈ listResources w, readIsOk (readResource w r.uri) = true := by
  intro r hr
  rcases List.mem_append.mp hr with hf | hd
  · unfold fileResPart at hf
    split at hf
    · rcases List.mem_map.mp hf with ⟨kv, hkv, rfl⟩
      rcases List.mem_filter.mp hkv with ⟨hkvmem, hpref⟩
      show readIsOk (readResource w ("file://" ++ kv.1)) = true
      unfold readResource
      simp only [pyStartsWith_append, pyDrop_append "file://" kv.1 7 (by rfl), if_true]
      have hsome : (w.fs.files.lookup kv.1).isSome = true :=
        lookup_isSome_of_mem (v := kv.2) (by simpa using hkvmem)
      rcases Option.isSome_iff_exists.mp hsome with ⟨content, hcontent⟩
      rw [hcontent]
      rfl
    · cases hf
  · unfold dbResPart at hd
    split at hd
    · rcases List.mem_map.mp hd with ⟨t, ht, rfl⟩
      show readIsOk (readResource w ("db://table/" ++ t.name)) = true
      unfold readResource
      have hnotfile : pyStartsWith ("db://table/" ++ t.name) "file://" = false := rfl
      simp only [hnotfile, Bool.false_eq_true, if_false,
        pyStartsWith_append, pyDrop_append "db://table/" t.name 11 (by rfl), if_true]
      rw [hpg]
      unfold pgExec buildSelect
      simp only [pyStartsWith_append3, pyEndsWith_append3, List.isEmpty_nil, Bool.and_self,
        Bool.true_and, Bool.and_true, if_true, extract_table_name, hval t ht]
      have hfind : ∃ t2, w.db.tables.find? (fun t3 => t3.name == t.name) = some t2 := by
        apply Option.isSome_iff_exists.mp
        rw [List.find?_isSome]
        exact ⟨t, ht, by simp⟩
      rcases hfind with ⟨t2, ht2⟩
      rw [ht2]
      rfl
    · cases hd

/-- Counterexample for C3 as frozen: a PostgreSQL database may hold a table
whose name needs quoting, here one containing a space.  Introspection lists
its descriptor, but read_resource on that descriptor fails, because the
reader interpolates the name unescaped into the query text and the backend
rejects the malformed statement.  So not every listed descriptor is
readable. -/
theorem listed_table_unreadable_cex :
    listResources wbad = [tableResource tbad] ∧
    (tableResource tbad).uri = "db://table/my table" ∧
    readResource wbad "db://table/my table"
      = Except.error (PyErr.backend "syntax error at or near \"my table\"") ∧
    readIsOk (readResource wbad "db://table/my table") = false :=
  ⟨rfl, rfl, rfl, rfl⟩

/-- Witness for C3 (amended): in a world with one sandbox file and one
well-named table, both listed descriptors read back successfully. -/
theorem listed_resources_readable_witness :
    wgood.db.exec = pgExec wgood.db.tables ∧
    (∀ t ∈ wgood.db.tables, validIdent t.name = true) ∧
    readIsOk (readResource wgood (fileResource ("/app/data/a.txt", "hi")).uri) = true ∧
    readIsOk (readResource wgood (tableResource tgood).uri) = true :=
  ⟨rfl, by decide,
    listed_resources_readable wgood rfl (by decide)
      (fileResource ("/app/data/a.txt", "hi")) (by decide),
    listed_resources_readable wgood rfl (by decide)
      (tableResource tgood) (by decide)⟩

end McpServer

